import Mathlib

/-!
Verification of `scripts/utils/generate_dummy_lut.py` (Quantiloom).

The script computes three closed-form spectral quantities over an evenly
spaced wavelength grid and writes them, with metadata, to an HDF5 file:

  * `cie_d65_spectrum`        — Planck blackbody irradiance at T = 6504 K;
  * `rayleigh_sky_radiance`   — a `1/lambda^4` Rayleigh proportionality;
  * `atmospheric_transmittance` — Beer-Lambert `exp(-tau * air_mass)` with a
    Kasten-Young air-mass factor;
  * `generate_dummy_lut`      — builds the four parallel arrays and the
    metadata attributes of the output file.

The Python code computes in IEEE double precision (casting the resulting
arrays to float32 on write); this development models the arithmetic over the
real numbers `ℝ`, which is the mathematical content the specification's
properties are about.  `np.linspace` is modelled by `linspace` below, numpy's
elementwise broadcasting by `List.map`.
-/

namespace GenerateDummyLut

open Real

/-- Planck constant `h = 6.62607015e-34` J·s (local constant of
`cie_d65_spectrum` in the source). -/
noncomputable def planck_h : ℝ := 6.62607015e-34

/-- Speed of light `c = 299792458.0` m/s. -/
noncomputable def light_c : ℝ := 299792458.0

/-- Boltzmann constant `k = 1.380649e-23` J/K. -/
noncomputable def boltzmann_k : ℝ := 1.380649e-23

/-- D65 correlated colour temperature `T = 6504.0` K. -/
noncomputable def d65_T : ℝ := 6504.0

/-- The Planck denominator `np.exp(h * c / (lambda_m * k * T)) - 1.0` from
`cie_d65_spectrum`, as a function of the wavelength in metres. -/
noncomputable def planck_denominator (lambda_m : ℝ) : ℝ :=
  Real.exp (planck_h * light_c / (lambda_m * boltzmann_k * d65_T)) - 1.0

/-- `cie_d65_spectrum(wavelengths_nm)` for a single wavelength: Planck
blackbody radiance at 6504 K, multiplied by the solar solid angle `6.8e-5`,
the per-metre to per-nanometre factor `1e-9`, and the empirical factor `1.5`. -/
noncomputable def cie_d65_spectrum (wavelengths_nm : ℝ) : ℝ :=
  let lambda_m := wavelengths_nm * 1e-9
  let numerator := 2.0 * planck_h * light_c ^ 2 / lambda_m ^ 5
  let radiance_per_m := numerator / planck_denominator lambda_m
  let solar_solid_angle : ℝ := 6.8e-5
  let irradiance_per_nm := radiance_per_m * solar_solid_angle * 1e-9
  irradiance_per_nm * 1.5

/-- `rayleigh_sky_radiance(wavelengths_nm)` for a single wavelength:
`0.1 * (550 / lambda)^4`. -/
noncomputable def rayleigh_sky_radiance (wavelengths_nm : ℝ) : ℝ :=
  let lambda_ref : ℝ := 550.0
  let rayleigh_factor := (lambda_ref / wavelengths_nm) ^ 4
  let base_radiance : ℝ := 0.1
  base_radiance * rayleigh_factor

/-- The Rayleigh optical depth at zenith from `atmospheric_transmittance`:
`tau_0 = tau_0_ref * (lambda_ref / lambda_nm) ** 4` with
`tau_0_ref = 0.1`, `lambda_ref = 550.0`. -/
noncomputable def tau_0 (lambda_nm : ℝ) : ℝ :=
  0.1 * (550.0 / lambda_nm) ^ 4

/-- `np.deg2rad`: degrees to radians. -/
noncomputable def deg2rad (d : ℝ) : ℝ := d * (Real.pi / 180)

/-- The denominator of the Kasten-Young air-mass factor in the source:
`np.cos(zenith_rad) + 0.50572 * (96.07995 - zenith_angle_deg) ** (-1.6364)`.
The fractional power is a real power (`Real.rpow`). -/
noncomputable def air_mass_denominator (zenith_angle_deg : ℝ) : ℝ :=
  Real.cos (deg2rad zenith_angle_deg) +
    0.50572 * Real.rpow (96.07995 - zenith_angle_deg) (-1.6364)

/-- The Kasten-Young air mass `air_mass = 1.0 / air_mass_denominator`. -/
noncomputable def air_mass (zenith_angle_deg : ℝ) : ℝ :=
  1.0 / air_mass_denominator zenith_angle_deg

/-- `atmospheric_transmittance(wavelengths_nm, zenith_angle_deg)` for a single
wavelength: `np.exp(-tau_0 * air_mass)`. -/
noncomputable def atmospheric_transmittance (wavelengths_nm zenith_angle_deg : ℝ) : ℝ :=
  Real.exp (-tau_0 wavelengths_nm * air_mass zenith_angle_deg)

/-- `np.linspace(start, stop, num)` over `ℝ`: `num` evenly spaced samples,
both endpoints included; `num = 1` yields `[start]`, `num = 0` is empty. -/
noncomputable def linspace (start stop : ℝ) (num : ℕ) : List ℝ :=
  if num = 1 then [start]
  else (List.range num).map (fun i : ℕ => start + (i : ℝ) * ((stop - start) / ((num : ℝ) - 1)))

/-- A metadata attribute value as written by the source: either a string
literal, or (`strOfFloat x`) the string Python's `str()` produces from the
float `x` — we record the float, not its digit string. Both are stored as
string attributes in the HDF5 file. -/
inductive MetaVal where
  | str (s : String)
  | strOfFloat (x : ℝ)

/-- The content of the HDF5 file written by `generate_dummy_lut`: the datasets
(`create_dataset` path, float32 array) in creation order, and the attributes
of the `/metadata` group in creation order. -/
structure HDF5File where
  datasets : List (String × List ℝ)
  metadata : List (String × MetaVal)

/-- The link name under the HDF5 root group of an object created at a path:
`h5py` strips a leading slash, so `create_dataset('/wavelengths', ...)` makes
a dataset whose name under the root group is `wavelengths`. -/
def linkName (path : String) : String :=
  if path.take 1 = "/" then path.drop 1 else path

/-- `generate_dummy_lut(output_path, lambda_min, lambda_max, num_samples,
zenith_angle)`: the wavelength grid, the three spectral arrays mapped over it,
and the HDF5 file content. The `output_path` argument only selects where the
file is written, the `print` calls only echo summaries to stdout, and the
float32 casts only narrow the stored precision; none of them affect the
values modelled here. -/
noncomputable def generate_dummy_lut (lambda_min lambda_max : ℝ) (num_samples : ℕ)
    (zenith_angle : ℝ) : HDF5File :=
  let wavelengths := linspace lambda_min lambda_max num_samples
  let solar_irradiance := wavelengths.map cie_d65_spectrum
  let sky_radiance := wavelengths.map rayleigh_sky_radiance
  let transmittance := wavelengths.map (fun w => atmospheric_transmittance w zenith_angle)
  { datasets := [("/wavelengths", wavelengths),
                 ("/solar_irradiance", solar_irradiance),
                 ("/sky_radiance", sky_radiance),
                 ("/transmittance", transmittance)],
    metadata := [("model", MetaVal.str "Dummy_Rayleigh"),
                 ("solar_zenith_deg", MetaVal.strOfFloat zenith_angle),
                 ("visibility_km", MetaVal.str "23.0"),
                 ("description", MetaVal.str "Simplified Rayleigh atmosphere for testing"),
                 ("generator", MetaVal.str "generate_dummy_lut.py")] }

/-- The command-line driver `main`: argparse converts the flag text to
numbers (malformed text aborts inside argparse before this point), the output
directory is created, and `generate_dummy_lut` is called unconditionally.
The source contains no range validation of `lambda_min`, `lambda_max`,
`num_samples` or `zenith`, and no error path of its own, so the run always
succeeds with the generated file. -/
noncomputable def main (lambda_min lambda_max : ℝ) (num_samples : ℕ) (zenith : ℝ) :
    Except String HDF5File :=
  Except.ok (generate_dummy_lut lambda_min lambda_max num_samples zenith)

/-- The reference transmittance formula exactly as the specification words it:
`exp(-tau0 * (lambda_ref/lambda)^4 * airmass(z))` with `tau0 = 0.1`,
`lambda_ref = 550` nm, and `airmass(z) = 1 / (cos(z) + 0.50572 *
(96.07995 - z)^(-1.6364))` (Kasten-Young, `z` the zenith angle in degrees).
Written from the spec, to be compared with `atmospheric_transmittance`. -/
noncomputable def spec_reference_transmittance (lam z : ℝ) : ℝ :=
  Real.exp (-(0.1) * (550 / lam) ^ 4 *
    (1 / (Real.cos (z * (Real.pi / 180)) + 0.50572 * Real.rpow (96.07995 - z) (-1.6364))))

/-! ### Helper lemmas -/

/-- On `[0, 90]` degrees the air-mass denominator is strictly positive:
the cosine is nonnegative there and the `rpow` term is strictly positive. -/
lemma air_mass_denominator_pos {z : ℝ} (h0 : 0 ≤ z) (h90 : z ≤ 90) :
    0 < air_mass_denominator z := by
  have hpi := Real.pi_pos
  have hcos : 0 ≤ Real.cos (deg2rad z) := by
    apply Real.cos_nonneg_of_mem_Icc
    unfold deg2rad
    constructor
    · nlinarith
    · nlinarith
  have hbase : (0 : ℝ) < 96.07995 - z := by linarith
  have hr : 0 < Real.rpow (96.07995 - z) (-1.6364) :=
    Real.rpow_pos_of_pos hbase _
  unfold air_mass_denominator
  nlinarith

/-- On `[0, 90]` degrees the air mass itself is strictly positive. -/
lemma air_mass_pos {z : ℝ} (h0 : 0 ≤ z) (h90 : z ≤ 90) : 0 < air_mass z := by
  unfold air_mass
  have := air_mass_denominator_pos h0 h90
  positivity

/-- The optical depth is strictly positive for positive wavelength. -/
lemma tau_0_pos {lam : ℝ} (h : 0 < lam) : 0 < tau_0 lam := by
  unfold tau_0
  positivity

/-- The wavelength grid always has exactly `num` elements. -/
lemma linspace_length (a b : ℝ) (n : ℕ) : (linspace a b n).length = n := by
  unfold linspace
  by_cases h1 : n = 1
  · simp [h1]
  · rw [if_neg h1]
    simp

/-! ### Claims -/

/-- Claim C2: for every wavelength > 0 and every zenith angle in [0, 90),
the transmittance computed by `atmospheric_transmittance` lies in [0, 1]. -/
theorem transmittance_mem_unit_interval (lam z : ℝ) (hlam : 0 < lam)
    (hz0 : 0 ≤ z) (hz90 : z < 90) :
    0 ≤ atmospheric_transmittance lam z ∧ atmospheric_transmittance lam z ≤ 1 := by
  have ham : 0 < air_mass z := air_mass_pos hz0 (le_of_lt hz90)
  have htau : 0 < tau_0 lam := tau_0_pos hlam
  unfold atmospheric_transmittance
  refine ⟨le_of_lt (Real.exp_pos _), le_of_lt ?_⟩
  apply Real.exp_lt_one_iff.mpr
  nlinarith

/-- Witness for C2 at wavelength 550 nm, zenith 30 degrees. -/
theorem transmittance_mem_unit_interval_witness :
    0 ≤ atmospheric_transmittance 550 30 ∧ atmospheric_transmittance 550 30 ≤ 1 :=
  transmittance_mem_unit_interval 550 30 (by norm_num) (by norm_num) (by norm_num)

/-- Claim C1, counterexample: with the invalid bounds `lambda_min = 500 >
400 = lambda_max` the run does not fail — `main` succeeds and the output file
is written in full, with all four arrays populated (length 3). This refutes
"the run fails with a validation error before any spectral computation ...
and no (partial) output file is produced". -/
theorem invalid_bounds_output_still_written :
    main 500 400 3 30 = Except.ok (generate_dummy_lut 500 400 3 30) ∧
    (generate_dummy_lut 500 400 3 30).datasets.map (fun d => d.2.length) = [3, 3, 3, 3] ∧
    ¬ (500 : ℝ) < 400 := by
  refine ⟨rfl, ?_, by norm_num⟩
  simp [generate_dummy_lut, linspace_length]

/-- Claim C1, amended: the source performs no wavelength-bound validation at
all. For every invalid pair of bounds (`lambda_min` non-positive or
`lambda_min ≥ lambda_max`) the run still succeeds and writes a complete
output file whose four arrays all have length `num_samples`; only argparse's
own parsing of malformed flag text can abort the run. -/
theorem no_wavelength_bounds_validation (a b z : ℝ) (n : ℕ)
    (hinvalid : ¬(0 < a ∧ a < b)) :
    main a b n z = Except.ok (generate_dummy_lut a b n z) ∧
    (generate_dummy_lut a b n z).datasets.map (fun d => d.2.length) = [n, n, n, n] := by
  refine ⟨rfl, ?_⟩
  simp [generate_dummy_lut, linspace_length]

/-- Witness for the amended C1 at the invalid bounds (500, 400). -/
theorem no_wavelength_bounds_validation_witness :
    main 500 400 5 30 = Except.ok (generate_dummy_lut 500 400 5 30) ∧
    (generate_dummy_lut 500 400 5 30).datasets.map (fun d => d.2.length) = [5, 5, 5, 5] :=
  no_wavelength_bounds_validation 500 400 30 5 (by norm_num)

/-- Claim C3, counterexample: with `lambda_min = 380 < 2500 = lambda_max` and
`num_samples = 1` the generated wavelength sequence is `[380]`, so its last
element is `380 = lambda_min`, not `lambda_max = 2500` — the claim's "first
and last elements equal lambda_min and lambda_max" fails at
`num_samples = 1`. -/
theorem single_sample_grid_ends_at_lambda_min :
    ((generate_dummy_lut 380 2500 1 30).datasets.map Prod.snd)[0]? = some [(380 : ℝ)] ∧
    (380 : ℝ) ≠ 2500 := by
  constructor
  · simp [generate_dummy_lut, linspace]
  · norm_num

/-- Claim C3, amended: for `lambda_min < lambda_max` and `num_samples ≥ 1`
the generated wavelength sequence is strictly increasing, has exactly
`num_samples` elements, starts at `lambda_min`, and ends at `lambda_max`
whenever `num_samples ≥ 2`; with `num_samples = 1` it is the single-element
sequence `[lambda_min]` (so the last element is then `lambda_min`, not
`lambda_max`). -/
theorem wavelength_grid_properties (a b : ℝ) (n : ℕ) (hab : a < b) (hn : 1 ≤ n) :
    (linspace a b n).length = n ∧
    (linspace a b n).Pairwise (· < ·) ∧
    (linspace a b n)[0]? = some a ∧
    (2 ≤ n → (linspace a b n)[n - 1]? = some b) ∧
    (n = 1 → linspace a b n = [a]) ∧
    (∀ z, ((generate_dummy_lut a b n z).datasets.map Prod.snd)[0]? =
      some (linspace a b n)) := by
  refine ⟨linspace_length a b n, ?_, ?_, ?_, ?_, ?_⟩
  · by_cases h1 : n = 1
    · simp [linspace, h1]
    · unfold linspace
      rw [if_neg h1, List.pairwise_map]
      refine (List.pairwise_lt_range n).imp ?_
      intro i j hij
      have h2 : 2 ≤ n := by omega
      have hn2 : (2 : ℝ) ≤ (n : ℝ) := by exact_mod_cast h2
      have hstep : 0 < (b - a) / ((n : ℝ) - 1) := by
        apply div_pos <;> linarith
      have hij2 : (i : ℝ) < (j : ℝ) := by exact_mod_cast hij
      nlinarith
  · by_cases h1 : n = 1
    · simp [linspace, h1]
    · unfold linspace
      rw [if_neg h1, List.getElem?_map, List.getElem?_range (by omega)]
      simp
  · intro h2
    unfold linspace
    rw [if_neg (by omega), List.getElem?_map, List.getElem?_range (by omega),
      Option.map_some']
    have hn2 : (2 : ℝ) ≤ (n : ℝ) := by exact_mod_cast h2
    have hcast : ((n - 1 : ℕ) : ℝ) = (n : ℝ) - 1 := by
      have h1 : 1 ≤ n := by omega
      push_cast [h1]
      ring
    have hne : ((n : ℝ) - 1) ≠ 0 := by linarith
    congr 1
    rw [hcast]
    field_simp
  · intro h1
    simp [linspace, h1]
  · intro z
    simp [generate_dummy_lut]

/-- Witness for the amended C3 at `(380, 2500, 3)`. -/
theorem wavelength_grid_properties_witness :
    (linspace 380 2500 3).length = 3 ∧
    (linspace 380 2500 3).Pairwise (· < ·) ∧
    (linspace 380 2500 3)[0]? = some 380 ∧
    (2 ≤ 3 → (linspace 380 2500 3)[3 - 1]? = some 2500) ∧
    (3 = 1 → linspace 380 2500 3 = [380]) ∧
    (∀ z, ((generate_dummy_lut 380 2500 3 z).datasets.map Prod.snd)[0]? =
      some (linspace 380 2500 3)) :=
  wavelength_grid_properties 380 2500 3 (by norm_num) (by norm_num)

/-- Claim C4: for every wavelength > 0 and zenith angle in [0, 90),
`atmospheric_transmittance` coincides with the reference formula
`exp(-tau0 * (lambda_ref/lambda)^4 * airmass(z))` with `tau0 = 0.1`,
`lambda_ref = 550` nm and the Kasten-Young air mass. -/
theorem transmittance_matches_reference_formula (lam z : ℝ) (hlam : 0 < lam)
    (hz0 : 0 ≤ z) (hz90 : z < 90) :
    atmospheric_transmittance lam z = spec_reference_transmittance lam z := by
  unfold atmospheric_transmittance spec_reference_transmittance tau_0 air_mass
    air_mass_denominator deg2rad
  congr 1
  ring

/-- Witness for C4 at wavelength 550 nm, zenith 30 degrees. -/
theorem transmittance_matches_reference_formula_witness :
    atmospheric_transmittance 550 30 = spec_reference_transmittance 550 30 :=
  transmittance_matches_reference_formula 550 30 (by norm_num) (by norm_num) (by norm_num)

/-- Claim C5, counterexample: at zenith angle exactly 90 degrees the air-mass
formula is not singular — the cosine term vanishes but the denominator is
strictly positive (it equals `0.50572 * 6.07995^(-1.6364) > 0`), so the
formula is well-defined there, refuting "for every zenith angle ≥ 90 the
air-mass computation is singular/invalid" and the exactness of the domain
`[0, 90)`. -/
theorem air_mass_denominator_nonzero_at_ninety :
    Real.cos (deg2rad 90) = 0 ∧ 0 < air_mass_denominator 90 := by
  constructor
  · unfold deg2rad
    rw [show (90 : ℝ) * (Real.pi / 180) = Real.pi / 2 by ring, Real.cos_pi_div_two]
  · exact air_mass_denominator_pos (by norm_num) (by norm_num)

/-- Claim C5, amended: the air-mass denominator is strictly positive on the
whole closed interval `[0, 90]` of zenith angles, so the formula is
mathematically well-defined there, including at 90 degrees; `[0, 90)` is thus
not the exact domain of well-definedness, and the source comment's bound
`zenith < 90` is an empirical validity restriction of the Kasten-Young
approximation rather than a mathematical singularity. -/
theorem air_mass_well_defined_on_closed_interval (z : ℝ) (h0 : 0 ≤ z) (h90 : z ≤ 90) :
    0 < air_mass_denominator z ∧ 0 < air_mass z :=
  ⟨air_mass_denominator_pos h0 h90, air_mass_pos h0 h90⟩

/-- Witness for the amended C5 at the boundary zenith angle 90 degrees. -/
theorem air_mass_well_defined_on_closed_interval_witness :
    0 < air_mass_denominator 90 ∧ 0 < air_mass 90 :=
  air_mass_well_defined_on_closed_interval 90 (by norm_num) (by norm_num)

/-- Claim C6: for every wavelength > 0 the Planck denominator
`exp(h*c/(lambda_m*k*T)) - 1` at `T = 6504` K is strictly positive, so the
division in `cie_d65_spectrum` is well-defined, and the resulting solar
irradiance is strictly positive. -/
theorem planck_denominator_and_irradiance_pos (lam : ℝ) (h : 0 < lam) :
    0 < planck_denominator (lam * 1e-9) ∧ 0 < cie_d65_spectrum lam := by
  have hx : 0 < planck_h * light_c / (lam * 1e-9 * boltzmann_k * d65_T) := by
    unfold planck_h light_c boltzmann_k d65_T
    positivity
  have hd : 0 < planck_denominator (lam * 1e-9) := by
    unfold planck_denominator
    have h1 : 1 < Real.exp (planck_h * light_c / (lam * 1e-9 * boltzmann_k * d65_T)) :=
      Real.one_lt_exp_iff.mpr hx
    linarith
  refine ⟨hd, ?_⟩
  simp only [cie_d65_spectrum, planck_h, light_c]
  positivity

/-- Witness for C6 at wavelength 550 nm. -/
theorem planck_denominator_and_irradiance_pos_witness :
    0 < planck_denominator (550 * 1e-9) ∧ 0 < cie_d65_spectrum 550 :=
  planck_denominator_and_irradiance_pos 550 (by norm_num)

/-- Claim C7: for every wavelength > 0, doubling the wavelength divides the
Rayleigh sky radiance by exactly 16, and likewise the Rayleigh optical depth
`tau_0` of `atmospheric_transmittance`. -/
theorem doubling_wavelength_divides_by_sixteen (lam : ℝ) (h : 0 < lam) :
    rayleigh_sky_radiance (2 * lam) = rayleigh_sky_radiance lam / 16 ∧
    tau_0 (2 * lam) = tau_0 lam / 16 := by
  have hne : lam ≠ 0 := ne_of_gt h
  constructor
  · simp only [rayleigh_sky_radiance]
    field_simp
    ring
  · simp only [tau_0]
    field_simp
    ring

/-- Witness for C7 at wavelength 550 nm. -/
theorem doubling_wavelength_divides_by_sixteen_witness :
    rayleigh_sky_radiance (2 * 550) = rayleigh_sky_radiance 550 / 16 ∧
    tau_0 (2 * 550) = tau_0 550 / 16 :=
  doubling_wavelength_divides_by_sixteen 550 (by norm_num)

/-- Claim C8: every run writes four parallel arrays of identical length
`num_samples`, each indexed by the same wavelength grid — the three spectral
arrays are pointwise maps over the one `linspace` grid. -/
theorem four_arrays_parallel_and_equal_length (a b z : ℝ) (n : ℕ) :
    (generate_dummy_lut a b n z).datasets.map (fun d => d.2.length) = [n, n, n, n] ∧
    (generate_dummy_lut a b n z).datasets.map Prod.snd =
      [linspace a b n,
       (linspace a b n).map cie_d65_spectrum,
       (linspace a b n).map rayleigh_sky_radiance,
       (linspace a b n).map (fun w => atmospheric_transmittance w z)] := by
  constructor
  · simp [generate_dummy_lut, linspace_length]
  · simp [generate_dummy_lut]

/-- Claim C9: the output file contains exactly the four datasets
`wavelengths`, `solar_irradiance`, `sky_radiance`, `transmittance` (in that
order, each an array of length `num_samples`), and the `metadata` group
carries exactly the string attributes `model`, `solar_zenith_deg`,
`visibility_km`, `description`, `generator`. -/
theorem output_file_datasets_and_metadata (a b z : ℝ) (n : ℕ) :
    (generate_dummy_lut a b n z).datasets.map (fun d => linkName d.1) =
      ["wavelengths", "solar_irradiance", "sky_radiance", "transmittance"] ∧
    (generate_dummy_lut a b n z).datasets.map (fun d => d.2.length) = [n, n, n, n] ∧
    (generate_dummy_lut a b n z).metadata.map Prod.fst =
      ["model", "solar_zenith_deg", "visibility_km", "description", "generator"] := by
  refine ⟨?_, ?_, ?_⟩
  · simp only [generate_dummy_lut, List.map_cons, List.map_nil]
    decide
  · simp [generate_dummy_lut, linspace_length]
  · rfl

/-- Claim C10: two runs that agree on `lambda_min`, `lambda_max` and
`num_samples` but differ in zenith angle produce identical `wavelengths`,
`solar_irradiance` and `sky_radiance` datasets (the first three), identical
dataset names, and identical metadata except the `solar_zenith_deg` attribute
(index 1): the zenith angle influences only the transmittance array and that
attribute. -/
theorem zenith_only_affects_transmittance_and_attr (a b : ℝ) (n : ℕ) (z1 z2 : ℝ) :
    (generate_dummy_lut a b n z1).datasets.take 3 =
      (generate_dummy_lut a b n z2).datasets.take 3 ∧
    (generate_dummy_lut a b n z1).datasets.map Prod.fst =
      (generate_dummy_lut a b n z2).datasets.map Prod.fst ∧
    (generate_dummy_lut a b n z1).metadata.eraseIdx 1 =
      (generate_dummy_lut a b n z2).metadata.eraseIdx 1 := by
  refine ⟨?_, ?_, ?_⟩ <;>
    simp [generate_dummy_lut, List.take_succ_cons, List.eraseIdx_cons_succ,
      List.eraseIdx_cons_zero]

end GenerateDummyLut
